import Mathlib

/-!
Verification development for the TrackMyRide Map integration
(`custom_components/trackmyride_map`).

The Python source is shallowly embedded: JSON-like dynamic values become the
`JVal` inductive, Python floats are modelled as exact rationals (non-finite
values and bit-level rounding are outside the model), datetimes as rational
epoch seconds, and fallible operations return `Option`/`Except`.
-/

/-- A Python/JSON dynamic value.  Dictionaries are association lists whose
first binding of a key is its value. -/
inductive JVal where
  | null : JVal
  | jbool : Bool → JVal
  | jint : Int → JVal
  | jfloat : ℚ → JVal
  | jstr : String → JVal
  | jlist : List JVal → JVal
  | jdict : List (String × JVal) → JVal
deriving Repr

/-- An association-list JSON object, the payload of `JVal.jdict`. -/
abbrev JObj := List (String × JVal)

/-- Structural (Python `==`) equality test on embedded values. -/
def jeq : JVal → JVal → Bool
  | .null, .null => true
  | .jbool a, .jbool b => a == b
  | .jint a, .jint b => a == b
  | .jfloat a, .jfloat b => a == b
  | .jstr a, .jstr b => a == b
  | .jlist xs, .jlist ys => jeqL xs ys
  | .jdict xs, .jdict ys => jeqD xs ys
  | _, _ => false
where
  jeqL : List JVal → List JVal → Bool
    | [], [] => true
    | a :: as, b :: bs => jeq a b && jeqL as bs
    | _, _ => false
  jeqD : List (String × JVal) → List (String × JVal) → Bool
    | [], [] => true
    | (k, a) :: as, (l, b) :: bs => k == l && jeq a b && jeqD as bs
    | _, _ => false

/-- Correctness of `jeq`, giving decidable equality on `JVal` that still
evaluates by kernel reduction. -/
def jeq_iff : ∀ a b : JVal, jeq a b = true ↔ a = b
  | .null, b => by cases b <;> simp [jeq]
  | .jbool a, b => by cases b <;> simp [jeq]
  | .jint a, b => by cases b <;> simp [jeq]
  | .jfloat a, b => by cases b <;> simp [jeq]
  | .jstr a, b => by cases b <;> simp [jeq]
  | .jlist xs, b => by
      cases b <;> simp [jeq]
      exact jeqL_iff xs _
  | .jdict xs, b => by
      cases b <;> simp [jeq]
      exact jeqD_iff xs _
where
  jeqL_iff : ∀ xs ys : List JVal, jeq.jeqL xs ys = true ↔ xs = ys
    | [], ys => by cases ys <;> simp [jeq.jeqL]
    | a :: as, ys => by
        cases ys with
        | nil => simp [jeq.jeqL]
        | cons b bs => simp [jeq.jeqL, jeq_iff a b, jeqL_iff as bs]
  jeqD_iff : ∀ xs ys : List (String × JVal), jeq.jeqD xs ys = true ↔ xs = ys
    | [], ys => by cases ys <;> simp [jeq.jeqD]
    | (k, a) :: as, ys => by
        cases ys with
        | nil => simp [jeq.jeqD]
        | cons b bs =>
          obtain ⟨l, v⟩ := b
          simp [jeq.jeqD, jeq_iff a v, jeqD_iff as bs]

instance : DecidableEq JVal := fun a b => decidable_of_iff (jeq a b = true) (jeq_iff a b)

/-- Python truthiness (`bool(x)`) on embedded values. -/
def pyTruthy : JVal → Bool
  | .null => false
  | .jbool b => b
  | .jint n => n != 0
  | .jfloat q => q != 0
  | .jstr s => s != ""
  | .jlist xs => !xs.isEmpty
  | .jdict xs => !xs.isEmpty

/-- Python `a or b` on embedded values. -/
def pyOr (a b : JVal) : JVal := if pyTruthy a then a else b

/-- `obj.get(key)`: a missing key yields Python `None` (`JVal.null`),
matching `dict.get`'s default. -/
def jget (o : JObj) (k : String) : JVal := (o.lookup k).getD .null

/-- The whitespace characters stripped by Python `str.strip()` (ASCII
subset; exotic Unicode whitespace is outside the model). -/
def isPySpace (c : Char) : Bool :=
  c = ' ' || c = '\t' || c = '\n' || c = '\x0d' || c = '\x0b' || c = '\x0c'

/-- Python `str.strip()`. -/
def pyStrip (s : String) : String :=
  ⟨(s.data.dropWhile isPySpace).reverse.dropWhile isPySpace |>.reverse⟩

/-- Python `str.endswith(suffix)`. -/
def pyEndsWith (s suffix : String) : Bool := suffix.data.isSuffixOf s.data

/-- Digits of a decimal numeral, most significant first, to a natural. -/
def digitsToNat (cs : List Char) : Nat :=
  cs.foldl (fun acc c => acc * 10 + (c.toNat - '0'.toNat)) 0

/-- The exact rational `m × 10^shift`. -/
def decimalValue (m : Nat) (shift : Int) : ℚ :=
  if 0 ≤ shift then mkRat (m * 10 ^ shift.toNat) 1 else mkRat m (10 ^ (-shift).toNat)

/-- Model of Python `float(str)` on the common grammar
`[ws] [sign] (digits [. digits] | . digits) [(e|E) [sign] digits] [ws]`,
returning an exact rational.  Underscore separators and the non-finite
literals `inf`/`nan` are outside the rational model and yield `none`. -/
def parsePyFloat (s : String) : Option ℚ :=
  let cs := (s.data.dropWhile isPySpace).reverse.dropWhile isPySpace |>.reverse
  match cs with
  | '+' :: rest => parseUnsigned rest
  | '-' :: rest => (parseUnsigned rest).map (fun q => -q)
  | rest => parseUnsigned rest
where
  parseExp : List Char → Option Int
    | [] => some 0
    | e :: rest =>
      if e = 'e' || e = 'E' then
        match rest with
        | '+' :: ds => if ds ≠ [] ∧ ds.all Char.isDigit then some (digitsToNat ds) else none
        | '-' :: ds => if ds ≠ [] ∧ ds.all Char.isDigit then some (-(digitsToNat ds : Int)) else none
        | ds => if ds ≠ [] ∧ ds.all Char.isDigit then some (digitsToNat ds) else none
      else none
  parseUnsigned (cs : List Char) : Option ℚ :=
    let intPart := cs.takeWhile Char.isDigit
    let rest := cs.dropWhile Char.isDigit
    match rest with
    | '.' :: rest2 =>
      let fracPart := rest2.takeWhile Char.isDigit
      let rest3 := rest2.dropWhile Char.isDigit
      if intPart = [] ∧ fracPart = [] then none
      else
        (parseExp rest3).map (fun e =>
          decimalValue (digitsToNat (intPart ++ fracPart)) (e - fracPart.length))
    | _ =>
      if intPart = [] then none
      else (parseExp rest).map (fun e => decimalValue (digitsToNat intPart) e)

/-- Model of Python `int(str)`: `[ws] [sign] digits [ws]`. -/
def parsePyInt (s : String) : Option Int :=
  let cs := (s.data.dropWhile isPySpace).reverse.dropWhile isPySpace |>.reverse
  match cs with
  | '+' :: ds => if ds ≠ [] ∧ ds.all Char.isDigit then some (digitsToNat ds) else none
  | '-' :: ds => if ds ≠ [] ∧ ds.all Char.isDigit then some (-(digitsToNat ds : Int)) else none
  | ds => if ds ≠ [] ∧ ds.all Char.isDigit then some (digitsToNat ds) else none

/-- Truncation toward zero, as Python `int(float)`. -/
def ratTrunc (q : ℚ) : Int := if 0 ≤ q then ⌊q⌋ else ⌈q⌉

/-- Values accepted by Python `float(x)`: numbers, booleans and numeric
strings; everything else raises and yields `none`. -/
def coerceFloat : JVal → Option ℚ
  | .null => none
  | .jbool b => some (if b then 1 else 0)
  | .jint n => some (n : ℚ)
  | .jfloat q => some q
  | .jstr s => parsePyFloat s
  | .jlist _ => none
  | .jdict _ => none

/-- Values accepted by Python `int(x)`: integers, booleans, floats
(truncated toward zero) and integer-literal strings. -/
def coerceInt : JVal → Option Int
  | .null => none
  | .jbool b => some (if b then 1 else 0)
  | .jint n => some n
  | .jfloat q => some (ratTrunc q)
  | .jstr s => parsePyInt s
  | .jlist _ => none
  | .jdict _ => none

/-- `_as_float` (coordinator.py): permissive float coercion with fallback. -/
def asFloat (value : JVal) (fallback : Option ℚ) : Option ℚ :=
  match coerceFloat value with
  | some x => some x
  | none => fallback

/-- `_as_int` (coordinator.py): permissive int coercion with fallback. -/
def asInt (value : JVal) (fallback : Option Int) : Option Int :=
  match coerceInt value with
  | some x => some x
  | none => fallback

/-- Deterministic stand-in for Python's `repr` of a float.  The exact
shortest-round-trip rendering of IEEE doubles is outside the rational
model; only determinism matters to the embedded code. -/
def ratRepr (q : ℚ) : String :=
  if q.den = 1 then toString q.num ++ ".0" else toString q.num ++ "/" ++ toString q.den

/-- Python `repr(x)` on embedded values (string escaping inside quotes is
not modelled; it is irrelevant to the substring checks the code does). -/
def pyRepr : JVal → String
  | .null => "None"
  | .jbool b => if b then "True" else "False"
  | .jint n => toString n
  | .jfloat q => ratRepr q
  | .jstr s => "'" ++ s ++ "'"
  | .jlist xs => "[" ++ reprList xs ++ "]"
  | .jdict xs => "\x7b" ++ reprObj xs ++ "\x7d"
where
  reprList : List JVal → String
    | [] => ""
    | [x] => pyRepr x
    | x :: rest => pyRepr x ++ ", " ++ reprList rest
  reprObj : List (String × JVal) → String
    | [] => ""
    | [(k, v)] => "'" ++ k ++ "': " ++ pyRepr v
    | (k, v) :: rest => "'" ++ k ++ "': " ++ pyRepr v ++ ", " ++ reprObj rest

/-- Python `str(x)` on embedded values. -/
def pyStr : JVal → String
  | .jstr s => s
  | v => pyRepr v

/-- ASCII lower-casing of one character (Python `str.lower()`; non-ASCII
case folding is outside the model). -/
def charLower (c : Char) : Char :=
  if 'A' ≤ c ∧ c ≤ 'Z' then Char.ofNat (c.toNat + 32) else c

/-- ASCII `str.lower()`. -/
def strLower (s : String) : String := ⟨s.data.map charLower⟩

/-- Substring containment test (`needle in hay` on Python strings). -/
def strContains (hay needle : String) : Bool :=
  hay.data.tails.any (fun t => needle.data.isPrefixOf t)

/-- `_DURATION_UNITS` (util.py). -/
def durationUnits : List (String × Nat) :=
  [("year", 365 * 24 * 3600), ("month", 30 * 24 * 3600), ("day", 24 * 3600),
   ("hour", 3600), ("minute", 60), ("second", 1)]

/-- `_pluralize` (util.py). -/
def pluralize (unit : String) (value : Nat) : String :=
  if value = 1 then unit else unit ++ "s"

/-- `_next_component` (util.py): the secondary unit rendered after the
primary one, including the special year/month branch of the source. -/
def nextComponent (remainder : Nat) (units : List (String × Nat)) (primaryUnit : String) :
    Option String :=
  match units with
  | [] => none
  | (unit, unitSeconds) :: rest =>
    if remainder < unitSeconds ∧ ¬(primaryUnit = "year" ∧ unit = "month" ∧ 0 < remainder) then
      nextComponent remainder rest primaryUnit
    else
      let value := remainder / unitSeconds
      let value :=
        if primaryUnit = "year" ∧ unit = "month" ∧ 0 < remainder ∧ value = 0 then 2 else value
      if value ≠ 0 then some (toString value ++ " " ++ pluralize unit value)
      else nextComponent remainder rest primaryUnit

/-- The unit-cascade loop in `format_comms_delta` (util.py), running over
`_DURATION_UNITS` with the source's `continue` conditions. -/
def formatLoop (adjusted : Nat) : List (String × Nat) → String
  | [] => "0 seconds"
  | (unit, unitSeconds) :: rest =>
    if adjusted < unitSeconds ∧ unit ≠ "second" then formatLoop adjusted rest
    else
      let primaryValue := adjusted / unitSeconds
      let remainder := adjusted % unitSeconds
      match nextComponent remainder rest unit with
      | some secondary => toString primaryValue ++ " " ++ pluralize unit primaryValue ++ " " ++ secondary
      | none => toString primaryValue ++ " " ++ pluralize unit primaryValue

/-- `format_comms_delta` (util.py) on an integer input already past the
`int(float(raw_seconds))` conversion: that conversion is the identity for
inputs of magnitude below `2^53`, the range over which this embedding is
claimed faithful.  Computes `max(seconds - 1, 0)` and renders it through
the unit cascade. -/
def formatCommsDelta (seconds : Int) : String :=
  formatLoop (seconds - 1).toNat durationUnits

/-- `format_comms_delta` applied to an optional already-coerced integer, as
the normalizer does (`None` input makes the coercion raise and the source
return `None`). -/
def formatCommsDeltaOpt : Option Int → Option String
  | none => none
  | some n => some (formatCommsDelta n)

/-- The documented API path suffix (api.py). -/
def apiSuffix : String := "/v2/php/api.php"

/-- Python `str.rstrip("/")`. -/
def rstripSlashes (s : String) : String :=
  ⟨(s.data.reverse.dropWhile (· = '/')).reverse⟩

/-- `normalize_endpoint` (api.py).  `none` models the
`TrackMyRideEndpointError` raised on an empty (falsy) URL. -/
def normalizeEndpoint (url : String) : Option String :=
  if url = "" then none
  else
    let normalized := pyStrip url
    if pyEndsWith normalized apiSuffix then some normalized
    else
      let trimmed := rstripSlashes normalized
      if pyEndsWith trimmed apiSuffix then some trimmed
      else some (trimmed ++ apiSuffix)

/-- `_validate_endpoint` (api.py): normalize, then re-check the suffix. -/
def validateEndpoint (url : String) : Option String :=
  (normalizeEndpoint url).bind
    (fun n => if pyEndsWith n apiSuffix then some n else none)

/-- `_has_invalid_key_message` (api.py): stringify the payload dict and
look for the upstream "invalid key"/"invalid api" markers. -/
def hasInvalidKeyMessage (payload : JObj) : Bool :=
  let message := strLower (pyStr (.jdict payload))
  strContains message "invalid key" || strContains message "invalid api"

/-- The claim-side predicate "the parsed body contains an upstream invalid
key message", i.e. the source's marker test applied to an arbitrary parsed
JSON body rather than only to dict payloads. -/
def bodyMentionsInvalidKey (body : JVal) : Bool :=
  let message := strLower (pyStr body)
  strContains message "invalid key" || strContains message "invalid api"

/-- The closed error taxonomy of the upstream client.  `throttleError` is
modelled from the spec: `TrackMyRideThrottleError` (carrying the response
status and its rate-limit hint headers) is imported by coordinator.py and
exercised by the repository's tests but its declaration and the 429 branch
raising it are missing from the source snapshot. -/
inductive ApiError where
  | endpointError : String → ApiError
  | authError : String → ApiError
  | throttleError : Nat → List (String × String) → ApiError
  | clientError : String → ApiError
deriving DecidableEq, Repr

/-- One attempted HTTP exchange as `_async_request` observes it: either a
network-level failure (`aiohttp.ClientError` or a timeout while talking to
the server) or a response with a status, headers, and a body that either
parsed as JSON or did not (`none`). -/
inductive HttpAttempt where
  | netFail : HttpAttempt
  | resp : Nat → List (String × String) → Option JVal → HttpAttempt
deriving DecidableEq, Repr

deriving instance DecidableEq for Except

/-- `_async_request` (api.py): classify one HTTP exchange.  The 404,
401/403, ≥500, JSON-parse and in-body invalid-key branches follow the
source; the 429 branch is modelled from the spec (see `ApiError`): HTTP
429 raises the throttle error carrying the response headers. -/
def asyncRequest (attempt : HttpAttempt) : Except ApiError JVal :=
  match attempt with
  | .netFail => .error (.clientError "network failure")
  | .resp status headers body =>
    if status = 404 then .error (.endpointError "Endpoint returned 404")
    else if status = 401 ∨ status = 403 then .error (.authError "Authentication failed")
    else if status = 429 then .error (.throttleError status headers)
    else if 500 ≤ status then .error (.clientError "Server error")
    else
      match body with
      | none => .error (.clientError "response was not JSON")
      | some payload =>
        match payload with
        | .jdict o =>
          if hasInvalidKeyMessage o then .error (.authError "TrackMyRide API reported invalid keys")
          else .ok (.jdict o)
        | p => .ok (.jdict [("data", p)])

/-- `_parse_zone_ids` (coordinator.py): split the raw comma-separated zone
field, strip whitespace, drop empties, preserve order. -/
def splitComma : List Char → List (List Char)
  | [] => [[]]
  | c :: rest =>
    match splitComma rest with
    | [] => [[]]
    | cur :: parts => if c = ',' then [] :: cur :: parts else (c :: cur) :: parts

/-- `_parse_zone_ids` (coordinator.py). -/
def parseZoneIds (zone : String) : List String :=
  if zone = "" then []
  else ((splitComma zone.data).map (fun part => pyStrip ⟨part⟩)).filter (fun p => p ≠ "")

/-- `_map_zone_names` (coordinator.py): ids map through the cache,
unresolved ids pass through unchanged. -/
def mapZoneNames (zoneIds : List String) (zoneMap : List (String × String)) : List String :=
  zoneIds.map (fun zid => (zoneMap.lookup zid).getD zid)

/-- Python dict assignment `m[k] = v` on an association list: replace the
existing binding in place or append a new one. -/
def dictSet {α : Type} (m : List (String × α)) (k : String) (v : α) : List (String × α) :=
  if m.any (fun p => p.1 = k) then m.map (fun p => if p.1 = k then (k, v) else p)
  else m ++ [(k, v)]

/-- `_parse_zone_map` (coordinator.py): extract `id -> properties.name`
from a GeoJSON-like `features` list, skipping malformed entries. -/
def parseZoneMap (payload : JVal) : List (String × String) :=
  match payload with
  | .jdict o =>
    match (o.lookup "features").getD .null with
    | .jlist features =>
      features.foldl
        (fun zoneMap feature =>
          match feature with
          | .jdict feat =>
            let zoneId := jget feat "id"
            let props := (feat.lookup "properties").getD (.jdict [])
            if ¬ pyTruthy zoneId then zoneMap
            else
              match props with
              | .jdict propsObj =>
                match jget propsObj "name" with
                | .jstr zoneName => dictSet zoneMap (pyStr zoneId) zoneName
                | _ => zoneMap
              | _ => zoneMap
          | _ => zoneMap)
        []
    | _ => []
  | _ => []

/-- `datetime.min.timestamp()` in UTC: the smallest epoch second value
`datetime.fromtimestamp` accepts (year 1). -/
def datetimeMinEpoch : Int := -62135596800

/-- `datetime.max.timestamp()` in UTC, truncated to whole seconds: the
largest epoch second value `datetime.fromtimestamp` accepts (year 9999). -/
def datetimeMaxEpoch : Int := 253402300799

/-- `_as_datetime_from_epoch` (coordinator.py): a UTC datetime modelled as
rational epoch seconds; out-of-range epochs raise inside the source's
`try` and fall back.  (Integer epochs in range are below `2^53`, so the
source's `float` conversion is exact.) -/
def asDatetimeFromEpoch (epochSeconds : Option Int) (fallback : Option ℚ) : Option ℚ :=
  match epochSeconds with
  | none => fallback
  | some n =>
    if datetimeMinEpoch ≤ n ∧ n ≤ datetimeMaxEpoch then some (mkRat n 1) else fallback

/-- Round to the nearest integer, ties to even (Python `round`). -/
def roundHalfEven (q : ℚ) : Int :=
  let f := ⌊q⌋
  let r := q - (f : ℚ)
  if r < mkRat 1 2 then f
  else if mkRat 1 2 < r then f + 1
  else if f % 2 = 0 then f else f + 1

/-- Lower bound of `datetime.timedelta` in microseconds
(`-999999999 days`). -/
def timedeltaMinUs : Int := -999999999 * 86400000000

/-- Upper bound of `datetime.timedelta` in microseconds
(`999999999 days, 23:59:59.999999`). -/
def timedeltaMaxUs : Int := 999999999 * 86400000000 + 86399999999

/-- `_minutes_to_timedelta` (coordinator.py): `timedelta(minutes=m)`,
modelled as total microseconds rounded half-to-even; out-of-range values
raise `OverflowError` inside the source's `try` and yield `None`. -/
def minutesToTimedelta (minutes : Option ℚ) : Option Int :=
  match minutes with
  | none => none
  | some m =>
    let us := roundHalfEven (m * 60000000)
    if timedeltaMinUs ≤ us ∧ us ≤ timedeltaMaxUs then some us else none

/-- Zero-pad a two-digit component (minutes/seconds of `str(timedelta)`). -/
def pad2Nat (n : Nat) : String := if n < 10 then "0" ++ toString n else toString n

/-- Zero-pad the microsecond component of `str(timedelta)` to six digits. -/
def pad6Nat (n : Nat) : String :=
  let s := toString n
  ⟨List.replicate (6 - s.length) '0'⟩ ++ s

/-- Python `str(timedelta)` on a timedelta of `us` total microseconds:
`[D day(s), ]H:MM:SS[.ffffff]` with days floored and the rest
normalized to be non-negative. -/
def timedeltaStr (us : Int) : String :=
  let dayUs : Int := 86400000000
  let d := us / dayUs
  let rem := (us % dayUs).toNat
  let secs := rem / 1000000
  let micro := rem % 1000000
  let hh := secs / 3600
  let mm := (secs % 3600) / 60
  let ss := secs % 60
  let frac := if micro ≠ 0 then "." ++ pad6Nat micro else ""
  let core := toString hh ++ ":" ++ pad2Nat mm ++ ":" ++ pad2Nat ss ++ frac
  if d ≠ 0 then toString d ++ " day" ++ (if d = 1 ∨ d = -1 then "" else "s") ++ ", " ++ core
  else core

/-- The canonical per-vehicle reading `_normalize_device` produces: one
field per key of the normalized dict, in the source's order.  A `name` or
`internal_battery` can be any upstream value, so those stay `JVal`;
datetimes are rational epoch seconds and timedeltas integer microseconds. -/
@[ext]
structure NormalizedDevice where
  name : JVal
  rego : JVal
  lat : Option ℚ
  lon : Option ℚ
  speed_kmh : Option ℚ
  timestamp_epoch : Option Int
  timestamp_dt_utc : Option ℚ
  volts : Option ℚ
  comms_delta : Option Int
  comms_delta_seconds : Option Int
  last_comms : Option String
  odometer : Option ℚ
  acc_counter : Option ℚ
  acc_counter_timedelta : Option Int
  acc_counter_str : Option String
  external_power : Option Int
  engine : Option Int
  internal_battery : JVal
  zone : String
  zone_ids : List String
  zone_names : List String
  zone_count : Nat
  zone_state : String
  raw : JObj
deriving DecidableEq, Repr

/-- The published snapshot: vehicle id to normalized reading. -/
abbrev Snapshot := List (String × NormalizedDevice)

/-- `", ".join(names)`. -/
def joinCommaSpace : List String → String
  | [] => ""
  | [x] => x
  | x :: rest => x ++ ", " ++ joinCommaSpace rest

/-- The nested "first telemetry point" extraction of `_normalize_device`
(coordinator.py): the first element of `aaData` when it is a non-empty
list whose first element is a dict. -/
def firstPoint (rawDevice : JObj) : Option JObj :=
  match jget rawDevice "aaData" with
  | .jlist (first :: _) =>
    match first with
    | .jdict o => some o
    | _ => none
  | _ => none

/-- The record-construction body of `_normalize_device` (coordinator.py),
parameterized by the resolved previous entry
(`previous.get(unique_id, {})`, `none` when absent). -/
def buildDevice (rawDevice : JObj) (prevEntry : Option NormalizedDevice)
  (zoneMap : List (String × String)) (uniqueId : String) : NormalizedDevice :=
  let name := pyOr (jget rawDevice "name") (.jstr ("TrackMyRide " ++ uniqueId))
  let rego := jget rawDevice "rego"
  let commsDelta := asInt (jget rawDevice "comms_delta") (prevEntry.bind (·.comms_delta))
  let point : Option JObj := firstPoint rawDevice
  let lat0 := prevEntry.bind (·.lat)
  let lon0 := prevEntry.bind (·.lon)
  let speed0 := prevEntry.bind (·.speed_kmh)
  let volts0 := asFloat (jget rawDevice "volts") (prevEntry.bind (·.volts))
  let epoch0 := prevEntry.bind (·.timestamp_epoch)
  let dt0 := prevEntry.bind (·.timestamp_dt_utc)
  let odometer := asFloat (jget rawDevice "odometer") (prevEntry.bind (·.odometer))
  let accCounter := asFloat (jget rawDevice "acc_counter") (prevEntry.bind (·.acc_counter))
  let externalPower := asInt (jget rawDevice "external_power") (prevEntry.bind (·.external_power))
  let engine := asInt (jget rawDevice "engine") (prevEntry.bind (·.engine))
  let internalBattery :=
      pyOr (jget rawDevice "internal_battery") ((prevEntry.map (·.internal_battery)).getD .null)
  let zone := match jget rawDevice "zone" with | .jstr z => z | _ => ""
  let zoneIds := parseZoneIds zone
  let zoneNames := mapZoneNames zoneIds zoneMap
  let lat := match point with | some pt => asFloat (jget pt "lat") lat0 | none => lat0
  let lon :=
      match point with
      | some pt => asFloat (pyOr (jget pt "lng") (jget pt "lon")) lon0
      | none => lon0
  let speed := match point with | some pt => asFloat (jget pt "speed") speed0 | none => speed0
  let volts := match point with | some pt => asFloat (jget pt "volts") volts0 | none => volts0
  let epoch :=
      match point with
      | some pt => asInt (pyOr (jget pt "epoch") (jget rawDevice "last_data_at_epoch")) epoch0
      | none => asInt (jget rawDevice "last_data_at_epoch") epoch0
  let dt := asDatetimeFromEpoch epoch dt0
  let accTd := minutesToTimedelta accCounter
  let accStr :=
      match accTd with
      | some td => if td ≠ 0 then some (timedeltaStr td) else none
      | none => none
  { name := name
    rego := rego
    lat := lat
    lon := lon
    speed_kmh := speed
    timestamp_epoch := epoch
    timestamp_dt_utc := dt
    volts := volts
    comms_delta := commsDelta
    comms_delta_seconds := commsDelta.map (fun n => max (n - 1) 0)
    last_comms := formatCommsDeltaOpt commsDelta
    odometer := odometer
    acc_counter := accCounter
    acc_counter_timedelta := accTd
    acc_counter_str := accStr
    external_power := externalPower
    engine := engine
    internal_battery := internalBattery
    zone := zone
    zone_ids := zoneIds
    zone_names := zoneNames
    zone_count := zoneIds.length
    zone_state := if zoneNames ≠ [] then joinCommaSpace zoneNames else ""
    raw := rawDevice }

/-- `_normalize_device` (coordinator.py): map one raw upstream record to
`(unique_id, NormalizedDevice)` with per-field carry-forward from the
previous snapshot entry, or `none` when the record has no usable
`unique_id`. -/
def normalizeDevice (rawDevice : JObj) (previous : Snapshot)
    (zoneMap : List (String × String)) : Option (String × NormalizedDevice) :=
  let uniqueId := pyStrip (pyStr (pyOr (jget rawDevice "unique_id") (.jstr "")))
  if uniqueId = "" then none
  else some (uniqueId, buildDevice rawDevice (previous.lookup uniqueId) zoneMap uniqueId)

/-- `_coalesce_device` (coordinator.py): keep the previous object when it
equals the freshly normalized one, to signal "no change" downstream. -/
def coalesceDevice (previous : Option NormalizedDevice) (current : NormalizedDevice) :
    NormalizedDevice :=
  match previous with
  | some p => if p = current then p else current
  | none => current

/-- Month-name index for the HTTP-date parser. -/
def monthIndex (m : String) : Option Nat :=
  match m with
  | "jan" => some 1 | "feb" => some 2 | "mar" => some 3 | "apr" => some 4
  | "may" => some 5 | "jun" => some 6 | "jul" => some 7 | "aug" => some 8
  | "sep" => some 9 | "oct" => some 10 | "nov" => some 11 | "dec" => some 12
  | _ => none

/-- Days since the Unix epoch of a proleptic-Gregorian civil date
(standard era-based algorithm). -/
def daysFromCivil (y : Int) (m d : Int) : Int :=
  let y' := y - (if m ≤ 2 then 1 else 0)
  let era := (if 0 ≤ y' then y' else y' - 399) / 400
  let yoe := y' - era * 400
  let doy := (153 * (m + (if 2 < m then -3 else 9)) + 2) / 5 + d - 1
  let doe := yoe * 365 + yoe / 4 - yoe / 100 + doy
  era * 146097 + doe - 719468

/-- Split a character list at whitespace. -/
def splitSpaceChar : List Char → List (List Char)
  | [] => [[]]
  | c :: rest =>
    match splitSpaceChar rest with
    | [] => [[]]
    | cur :: parts => if isPySpace c then [] :: cur :: parts else (c :: cur) :: parts

/-- Split a string into whitespace-separated words (Python `str.split()`). -/
def splitWords (s : String) : List String :=
  ((splitSpaceChar s.data).map (fun cs => (⟨cs⟩ : String))).filter (fun w => w ≠ "")

/-- Weekday names the HTTP-date parser drops. -/
def weekdayNames : List String :=
  ["mon", "tue", "wed", "thu", "fri", "sat", "sun",
   "monday", "tuesday", "wednesday", "thursday", "friday", "saturday", "sunday"]

/-- Split a character list at a separator character. -/
def splitOnCharL (sep : Char) : List Char → List (List Char)
  | [] => [[]]
  | c :: rest =>
    match splitOnCharL sep rest with
    | [] => [[]]
    | cur :: parts => if c = sep then [] :: cur :: parts else (c :: cur) :: parts

/-- A non-empty all-digit token. -/
def parseDigitsNat (cs : List Char) : Option Nat :=
  if cs ≠ [] ∧ cs.all Char.isDigit then some (digitsToNat cs) else none

/-- Time-zone token of an HTTP date, as an offset in seconds. -/
def parseZoneOffset (z : String) : Option Int :=
  if z = "gmt" ∨ z = "ut" ∨ z = "utc" ∨ z = "z" then some 0
  else
    match z.data with
    | '+' :: ds =>
      if ds.length = 4 ∧ ds.all Char.isDigit then
        some ((digitsToNat (ds.take 2) * 3600 + digitsToNat (ds.drop 2) * 60 : Nat) : Int)
      else none
    | '-' :: ds =>
      if ds.length = 4 ∧ ds.all Char.isDigit then
        some (-((digitsToNat (ds.take 2) * 3600 + digitsToNat (ds.drop 2) * 60 : Nat) : Int))
      else none
    | _ => none

/-- `HH:MM[:SS]` of an HTTP date. -/
def parseTimeOfDay (t : String) : Option (Nat × Nat × Nat) :=
  match (splitOnCharL ':' t.data).map parseDigitsNat with
  | [some hh, some mm, some ss] =>
    if hh ≤ 23 ∧ mm ≤ 59 ∧ ss ≤ 59 then some (hh, mm, ss) else none
  | [some hh, some mm] =>
    if hh ≤ 23 ∧ mm ≤ 59 then some (hh, mm, 0) else none
  | _ => none

/-- Model of `email.utils.parsedate_to_datetime` on the RFC 1123 shape
`[Day,] DD Mon YYYY HH:MM[:SS] [zone]`, case-insensitive, returning UTC
epoch seconds (a missing zone gives a naive datetime, which the caller
reinterprets as UTC, so it is folded in here).  Two-digit years and
month-specific day bounds are outside the model. -/
def parseHttpDate (s : String) : Option ℚ :=
  let toks0 := splitWords (strLower s)
  let toks :=
    match toks0 with
    | first :: rest =>
      let core := if pyEndsWith first "," then (⟨first.data.dropLast⟩ : String) else first
      if weekdayNames.contains core then rest else toks0
    | [] => toks0
  match toks with
  | [dd, mon, yyyy, time] => buildDate dd mon yyyy time 0
  | [dd, mon, yyyy, time, zone] =>
    match parseZoneOffset zone with
    | some offset => buildDate dd mon yyyy time offset
    | none => none
  | _ => none
where
  buildDate (dd mon yyyy time : String) (offset : Int) : Option ℚ :=
    match parseDigitsNat dd.data, monthIndex mon, parseDigitsNat yyyy.data,
        parseTimeOfDay time with
    | some day, some m, some year, some (hh, mm, ss) =>
      if 1 ≤ day ∧ day ≤ 31 ∧ yyyy.data.length = 4 then
        some (mkRat
          (daysFromCivil year m day * 86400 + (hh * 3600 + mm * 60 + ss : Nat) - offset) 1)
      else none
    | _, _, _, _ => none

/-- `_get_header` (coordinator.py): exact lookup first, then a
case-insensitive scan. -/
def getHeader (headers : List (String × String)) (name : String) : Option String :=
  match headers.lookup name with
  | some v => some v
  | none => (headers.find? (fun p => strLower p.1 = strLower name)).map (·.2)

/-- `_retry_delay_from_headers` (coordinator.py): a seconds-valued
`Retry-After`, else an HTTP-date `Retry-After` as a delta from `now`,
else a milliseconds-valued `x-ms-retry-after-ms`, else no hint. -/
def retryDelayFromHeaders (headers : List (String × String)) (now : ℚ) : Option ℚ :=
  match getHeader headers "Retry-After" with
  | some ra =>
    if ra = "" then msRetryDelay headers
    else
      match parsePyInt ra with
      | some n => some ((max 0 n : Int) : ℚ)
      | none =>
        match parseHttpDate ra with
        | some parsedEpoch => some (max 0 (parsedEpoch - now))
        | none => msRetryDelay headers
  | none => msRetryDelay headers
where
  msRetryDelay (headers : List (String × String)) : Option ℚ :=
    match getHeader headers "x-ms-retry-after-ms" with
    | some ms =>
      if ms = "" then none
      else
        match parsePyInt ms with
        | some n => some (max 0 (mkRat n 1000))
        | none => none
    | none => none

/-- `_extract_devices` (coordinator.py): the record list from a payload
that is either a direct mapping of records or wrapped under `data`;
non-dict entries are skipped. -/
def extractDevices (payload : JVal) : List JObj :=
  match payload with
  | .jdict o =>
    let data := match o.lookup "data" with | some d => d | none => .jdict o
    match data with
    | .jdict entries =>
      entries.filterMap (fun p => match p.2 with | .jdict dv => some dv | _ => none)
    | _ => []
  | _ => []

/-- The zone-cache TTL (`timedelta(minutes=10)`), in seconds. -/
def zonesCacheTtl : ℚ := 600

/-- The fetch/parse/replace body of `_ensure_zone_map` (coordinator.py):
one zones fetch, cache replaced only by a non-empty parsed mapping, a
failure keeps the cache, and `finally` stamps `_last_zones_fetch`. -/
def zoneFetchStep (zoneMap : List (String × String)) (now : ℚ)
    (fetchResult : Except Unit JVal) : List (String × String) × Option ℚ × Bool :=
  match fetchResult with
  | .ok payload =>
    let zm := parseZoneMap payload
    (if zm.isEmpty then zoneMap else zm, some now, true)
  | .error _ => (zoneMap, some now, true)

/-- `_ensure_zone_map` (coordinator.py): no-op while the cache is younger
than the TTL, otherwise run `zoneFetchStep`.  The `Bool` reports whether a
zones fetch was attempted. -/
def ensureZoneMap (zoneMap : List (String × String)) (lastFetch : Option ℚ) (now : ℚ)
    (fetchResult : Except Unit JVal) : List (String × String) × Option ℚ × Bool :=
  match lastFetch with
  | some t =>
    if now - t < zonesCacheTtl then (zoneMap, lastFetch, false)
    else zoneFetchStep zoneMap now fetchResult
  | none => zoneFetchStep zoneMap now fetchResult

/-- Modelled from the spec: `THROTTLE_BACKOFF_INITIAL` (5 s initial
backoff), imported by coordinator.py from const.py but missing from the
source snapshot of const.py. -/
def throttleBackoffInitial : Nat := 5

/-- Modelled from the spec: `THROTTLE_BACKOFF_MAX` (300 s backoff cap),
imported by coordinator.py from const.py but missing from the source
snapshot of const.py. -/
def throttleBackoffMax : Nat := 300

/-- What one `async_get_devices` call did, as `_async_update_data`'s
`try/except` ladder distinguishes the cases: success, the (spec-modelled)
throttle error with status and headers, and the endpoint / auth /
connection / unexpected exception classes. -/
inductive FetchOutcome where
  | success : JVal → FetchOutcome
  | throttled : Nat → List (String × String) → FetchOutcome
  | endpointFailed : FetchOutcome
  | authFailed : FetchOutcome
  | connectionFailed : FetchOutcome
  | unexpectedFailed : FetchOutcome
deriving DecidableEq, Repr

/-- The `UpdateFailed` classes `_async_update_data` re-raises. -/
inductive UpdateFailure where
  | endpointError : UpdateFailure
  | authError : UpdateFailure
  | connectionError : UpdateFailure
  | unexpectedError : UpdateFailure
deriving DecidableEq, Repr

/-- The coordinator's mutable state: published snapshot (`self.data`,
`None` before the first success), throttle fields, last HTTP status and
the zone cache. -/
structure CoordState where
  data : Option Snapshot
  nextAllowedAt : Option ℚ
  throttleCount : Nat
  throttleLoggedUntil : Option ℚ
  lastHttpStatus : Option Nat
  zoneMap : List (String × String)
  lastZonesFetch : Option ℚ
deriving DecidableEq, Repr

/-- The body of `_async_update_data` after the throttle gate (coordinator.py):
classify the fetch outcome, update throttle state, and on success extract,
zone-resolve, normalize and coalesce the device records.  `clientStatus`
is the client's `last_http_status` attribute read on success; `zoneNow`
and `zoneFetch` feed `_ensure_zone_map` when a zone lookup is needed. -/
def coordFetchPhase (st : CoordState) (now : ℚ) (fetch : FetchOutcome)
    (clientStatus : Option Nat) (zoneNow : ℚ) (zoneFetch : Except Unit JVal) :
    CoordState × Except UpdateFailure Snapshot :=
  match fetch with
  | .throttled status headers =>
    let newCount := st.throttleCount + 1
    let delay : ℚ :=
      match retryDelayFromHeaders headers now with
      | some d => d
      | none => mkRat (min (throttleBackoffInitial * 2 ^ (newCount - 1)) throttleBackoffMax) 1
    ({ st with
        lastHttpStatus := some status
        throttleCount := newCount
        nextAllowedAt := some (now + delay)
        throttleLoggedUntil := none },
     .ok (st.data.getD []))
  | .endpointFailed => (st, .error .endpointError)
  | .authFailed => (st, .error .authError)
  | .connectionFailed => (st, .error .connectionError)
  | .unexpectedFailed => (st, .error .unexpectedError)
  | .success payload =>
    let devices := extractDevices payload
    let previous := st.data.getD []
    let needsZone := devices.any
      (fun d => match jget d "zone" with | .jstr z => pyStrip z ≠ "" | _ => false)
    let zoneState :=
      if needsZone then
        let (zm, lf, _) := ensureZoneMap st.zoneMap st.lastZonesFetch zoneNow zoneFetch
        (zm, lf)
      else (st.zoneMap, st.lastZonesFetch)
    let normalized := devices.foldl
      (fun acc rawDev =>
        match normalizeDevice rawDev previous zoneState.1 with
        | none => acc
        | some (uid, nd) => dictSet acc uid (coalesceDevice (previous.lookup uid) nd))
      []
    ({ st with
        data := some normalized
        nextAllowedAt := none
        throttleCount := 0
        throttleLoggedUntil := none
        lastHttpStatus := clientStatus
        zoneMap := zoneState.1
        lastZonesFetch := zoneState.2 },
     .ok normalized)

/-- `_async_update_data` (coordinator.py): one poll cycle.  `now` is the
single `self._utcnow()` sample taken at entry, before the request is
issued; while throttled the cycle skips the fetch and republishes the
existing snapshot. -/
def coordStep (st : CoordState) (now : ℚ) (fetch : FetchOutcome)
    (clientStatus : Option Nat) (zoneNow : ℚ) (zoneFetch : Except Unit JVal) :
    CoordState × Except UpdateFailure Snapshot :=
  match st.nextAllowedAt with
  | some t =>
    if now < t then
      ({ st with throttleLoggedUntil := some t }, .ok (st.data.getD []))
    else coordFetchPhase st now fetch clientStatus zoneNow zoneFetch
  | none => coordFetchPhase st now fetch clientStatus zoneNow zoneFetch

/-- Modelled from the spec: the refresh guard of the Home Assistant
`DataUpdateCoordinator` base class (not part of the source snapshot; only
its subclass and tests are).  Timer and manual refresh requests serialize
through one in-flight devices fetch; requests arriving while one is in
flight join it instead of issuing another upstream call, and all joined
requesters observe the snapshot that fetch produces. -/
structure FlightState where
  inFlight : Bool
  waiters : List Nat
  upstreamCalls : Nat
  results : List (Nat × Snapshot)
deriving DecidableEq, Repr

/-- Events of the refresh guard: a refresh request by requester `rid`
(timer-driven or manual), or completion of the in-flight fetch with the
resulting snapshot. -/
inductive RefreshEvent where
  | request : Nat → RefreshEvent
  | complete : Snapshot → RefreshEvent
deriving DecidableEq, Repr

/-- Modelled from the spec: one step of the single-flight refresh guard. -/
def refreshStep (s : FlightState) (e : RefreshEvent) : FlightState :=
  match e with
  | .request rid =>
    if s.inFlight then { s with waiters := s.waiters ++ [rid] }
    else
      { s with inFlight := true, waiters := [rid], upstreamCalls := s.upstreamCalls + 1 }
  | .complete snap =>
    { s with
        inFlight := false
        waiters := []
        results := s.results ++ s.waiters.map (fun r => (r, snap)) }

/-- Claim-side formalization of the spec's rendering rule: the largest
non-zero unit of a remainder, from the given unit list. -/
def secondaryUnit (r : Nat) : List (String × Nat) → Option String
  | [] => none
  | (unit, unitSeconds) :: rest =>
    if r < unitSeconds then secondaryUnit r rest
    else some (toString (r / unitSeconds) ++ " " ++ pluralize unit (r / unitSeconds))

/-- Claim-side formalization of the spec's rendering rule: express a
duration as its two largest non-zero units (year/month/day/hour/minute/
second with month = 30 days, year = 365 days); durations under one minute
render as whole seconds only. -/
def renderPure (m : Nat) : List (String × Nat) → String
  | [] => "0 seconds"
  | (unit, unitSeconds) :: rest =>
    if m < unitSeconds ∧ unit ≠ "second" then renderPure m rest
    else
      let v := m / unitSeconds
      match secondaryUnit (m % unitSeconds) rest with
      | some s => toString v ++ " " ++ pluralize unit v ++ " " ++ s
      | none => toString v ++ " " ++ pluralize unit v

/-- The spec's two-largest-units rendering, over the duration unit list. -/
def renderTwoLargest (m : Nat) : String := renderPure m durationUnits

/-- The two-largest-units rule amended with the source's year/month
branch: when the primary unit is a year and the sub-year remainder is
positive but under one month, the secondary component reads "2 months". -/
def renderQuirk (m : Nat) : List (String × Nat) → String
  | [] => "0 seconds"
  | (unit, unitSeconds) :: rest =>
    if m < unitSeconds ∧ unit ≠ "second" then renderQuirk m rest
    else
      let v := m / unitSeconds
      let sec :=
        if unit = "year" ∧ 0 < m % unitSeconds ∧ m % unitSeconds < 2592000 then
          some "2 months"
        else secondaryUnit (m % unitSeconds) rest
      match sec with
      | some s => toString v ++ " " ++ pluralize unit v ++ " " ++ s
      | none => toString v ++ " " ++ pluralize unit v

/-- The amended rendering, over the duration unit list. -/
def renderTwoLargestQuirk (m : Nat) : String := renderQuirk m durationUnits

lemma headDropWhileNot (p : Char → Bool) :
    ∀ (l : List Char) (a : Char), (l.dropWhile p).head? = some a → p a = false := by
  intro l
  induction l with
  | nil => intro a h; simp [List.dropWhile] at h
  | cons c rest ih =>
    intro a h
    by_cases hc : p c
    · rw [List.dropWhile_cons_of_pos hc] at h
      exact ih a h
    · rw [List.dropWhile_cons_of_neg hc] at h
      simp at h
      rw [← h]
      exact Bool.not_eq_true _ ▸ (by simpa using hc)

lemma dropWhileEqSelf (p : Char → Bool) (l : List Char)
    (h : ∀ a, l.head? = some a → p a = false) : l.dropWhile p = l := by
  cases l with
  | nil => rfl
  | cons c rest =>
    have hc : p c = false := h c rfl
    simp [List.dropWhile_cons, hc]

lemma getLastDropWhile (p : Char → Bool) :
    ∀ l : List Char, l.dropWhile p ≠ [] → (l.dropWhile p).getLast? = l.getLast? := by
  intro l
  induction l with
  | nil => intro h; simp [List.dropWhile] at h
  | cons c rest ih =>
    intro h
    by_cases hc : p c
    · rw [List.dropWhile_cons_of_pos hc] at h ⊢
      rw [ih h]
      have hr : rest ≠ [] := by
        intro he
        exact h (by simp [he, List.dropWhile])
      cases rest with
      | nil => exact absurd rfl hr
      | cons d ds => simp [List.getLast?]
    · rw [List.dropWhile_cons_of_neg hc]

lemma pyStripHead (s : String) :
    ∀ a, (pyStrip s).data.head? = some a → isPySpace a = false := by
  intro a h
  unfold pyStrip at h
  set m := s.data.dropWhile isPySpace with hm
  set w := m.reverse.dropWhile isPySpace with hw
  simp only [] at h
  rw [List.head?_reverse] at h
  have hwne : w ≠ [] := by
    intro he
    rw [he] at h
    simp at h
  rw [hw, getLastDropWhile isPySpace m.reverse (hw ▸ hwne)] at h
  rw [List.getLast?_reverse] at h
  exact headDropWhileNot isPySpace s.data a h

lemma pyStripLast (s : String) :
    ∀ a, (pyStrip s).data.getLast? = some a → isPySpace a = false := by
  intro a h
  unfold pyStrip at h
  simp only [] at h
  rw [List.getLast?_reverse] at h
  exact headDropWhileNot isPySpace _ a h

lemma pyStripEqSelf (s : String)
    (h1 : ∀ a, s.data.head? = some a → isPySpace a = false)
    (h2 : ∀ a, s.data.getLast? = some a → isPySpace a = false) : pyStrip s = s := by
  apply String.ext
  unfold pyStrip
  rw [dropWhileEqSelf isPySpace s.data h1]
  rw [dropWhileEqSelf isPySpace s.data.reverse (by
    intro a ha
    rw [List.head?_reverse] at ha
    exact h2 a ha)]
  exact List.reverse_reverse _

lemma pyStripIdem (s : String) : pyStrip (pyStrip s) = pyStrip s :=
  pyStripEqSelf _ (pyStripHead s) (pyStripLast s)

lemma rstripHead (s : String) (h : (rstripSlashes s).data ≠ []) :
    (rstripSlashes s).data.head? = s.data.head? := by
  unfold rstripSlashes at h ⊢
  simp only [] at h ⊢
  rw [List.head?_reverse]
  rw [getLastDropWhile _ s.data.reverse (by simpa using h)]
  exact List.getLast?_reverse _

lemma pyEndsWithAppend (a b : String) : pyEndsWith (a ++ b) b = true := by
  rw [pyEndsWith, List.isSuffixOf_iff_suffix, String.data_append]
  exact List.suffix_append _ _

lemma endsWithGetLast (r : String) (h : pyEndsWith r apiSuffix = true) :
    r.data.getLast? = some 'p' := by
  rw [pyEndsWith, List.isSuffixOf_iff_suffix] at h
  obtain ⟨t, ht⟩ := h
  rw [← ht, List.getLast?_append_of_ne_nil t (by decide)]
  decide

lemma endsWithNeNil (r : String) (h : pyEndsWith r apiSuffix = true) : r.data ≠ [] := by
  intro he
  rw [pyEndsWith, List.isSuffixOf_iff_suffix] at h
  obtain ⟨t, ht⟩ := h
  rw [he] at ht
  have := List.append_eq_nil.mp ht
  exact absurd this.2 (by decide)

lemma strNeEmptyOfData (r : String) (h : r.data ≠ []) : r ≠ "" :=
  fun he => h (by rw [he])

lemma normalizeEndpointFixed (r : String) (hend : pyEndsWith r apiSuffix = true)
    (hstrip : pyStrip r = r) : normalizeEndpoint r = some r := by
  have hne : r ≠ "" := strNeEmptyOfData r (endsWithNeNil r hend)
  simp [normalizeEndpoint, hne, hstrip, hend]

/-- C10: for every non-empty URL, `normalize_endpoint` returns a string
ending in `/v2/php/api.php` and is idempotent on its own output; the empty
string raises `TrackMyRideEndpointError` (modelled as `none`). -/
theorem c10_endpoint_normalization (url : String) :
    (url ≠ "" →
      ∃ r, normalizeEndpoint url = some r ∧ pyEndsWith r apiSuffix = true ∧
        normalizeEndpoint r = some r) ∧
    normalizeEndpoint "" = none := by
  constructor
  · intro hne
    by_cases hA : pyEndsWith (pyStrip url) apiSuffix = true
    · exact ⟨pyStrip url, by simp [normalizeEndpoint, hne, hA],
        hA, normalizeEndpointFixed _ hA (pyStripIdem url)⟩
    · by_cases hB : pyEndsWith (rstripSlashes (pyStrip url)) apiSuffix = true
      · refine ⟨rstripSlashes (pyStrip url), by simp [normalizeEndpoint, hne, hA, hB],
          hB, normalizeEndpointFixed _ hB (pyStripEqSelf _ ?_ ?_)⟩
        · intro a ha
          have hd : (rstripSlashes (pyStrip url)).data ≠ [] := by
            intro he
            rw [he] at ha
            simp at ha
          rw [rstripHead _ hd] at ha
          exact pyStripHead url a ha
        · intro a ha
          rw [endsWithGetLast _ hB] at ha
          have : a = 'p' := by simpa using ha.symm
          rw [this]
          decide
      · refine ⟨rstripSlashes (pyStrip url) ++ apiSuffix,
          by simp [normalizeEndpoint, hne, hA, hB],
          pyEndsWithAppend _ _,
          normalizeEndpointFixed _ (pyEndsWithAppend _ _) (pyStripEqSelf _ ?_ ?_)⟩
        · intro a ha
          rw [String.data_append] at ha
          cases htr : (rstripSlashes (pyStrip url)).data with
          | nil =>
            rw [htr] at ha
            simp at ha
            have : a = '/' := by
              have : apiSuffix.data.head? = some '/' := by decide
              rw [this] at ha
              simpa using ha.symm
            rw [this]
            decide
          | cons c cs =>
            rw [htr] at ha
            simp at ha
            have hc : (rstripSlashes (pyStrip url)).data.head? = some a := by
              rw [htr, ha]
              rfl
            have hd : (rstripSlashes (pyStrip url)).data ≠ [] := by
              rw [htr]
              simp
            rw [rstripHead _ hd] at hc
            exact pyStripHead url a hc
        · intro a ha
          rw [String.data_append,
            List.getLast?_append_of_ne_nil _ (by decide : apiSuffix.data ≠ [])] at ha
          have : a = 'p' := by
            have h2 : apiSuffix.data.getLast? = some 'p' := by decide
            rw [h2] at ha
            simpa using ha.symm
          rw [this]
          decide
  · rfl

theorem c10_endpoint_normalization_witness :
    normalizeEndpoint "https://app.trackmyride.com.au" =
      some "https://app.trackmyride.com.au/v2/php/api.php" ∧
    pyEndsWith "https://app.trackmyride.com.au/v2/php/api.php" apiSuffix = true ∧
    normalizeEndpoint "https://app.trackmyride.com.au/v2/php/api.php" =
      some "https://app.trackmyride.com.au/v2/php/api.php" := by
  obtain ⟨r, h1, h2, h3⟩ :=
    (c10_endpoint_normalization "https://app.trackmyride.com.au").1 (by decide)
  have hval : normalizeEndpoint "https://app.trackmyride.com.au" =
      some "https://app.trackmyride.com.au/v2/php/api.php" := by decide
  have hr : r = "https://app.trackmyride.com.au/v2/php/api.php" :=
    Option.some.inj (h1.symm.trans hval)
  subst hr
  exact ⟨h1, h2, h3⟩

/-- C7: a zone-cache refresh younger than the 10-minute TTL is a no-op;
otherwise exactly one fetch is attempted, the cached mapping is replaced
only by a non-empty parsed mapping (an empty or malformed payload and a
failed fetch keep the old mapping), and `fetched_at` advances to `now` in
every non-no-op case, including failure. -/
theorem c7_zone_cache_refresh (zoneMap : List (String × String)) (lastFetch : Option ℚ)
    (now : ℚ) (fetchResult : Except Unit JVal) :
    (∀ t, lastFetch = some t → now - t < zonesCacheTtl →
      ensureZoneMap zoneMap lastFetch now fetchResult = (zoneMap, lastFetch, false)) ∧
    ((lastFetch = none ∨ ∃ t, lastFetch = some t ∧ zonesCacheTtl ≤ now - t) →
      (ensureZoneMap zoneMap lastFetch now fetchResult).2.2 = true ∧
      (ensureZoneMap zoneMap lastFetch now fetchResult).2.1 = some now ∧
      (∀ p, fetchResult = .ok p →
        (ensureZoneMap zoneMap lastFetch now fetchResult).1 =
          if (parseZoneMap p).isEmpty then zoneMap else parseZoneMap p) ∧
      (fetchResult = .error () →
        (ensureZoneMap zoneMap lastFetch now fetchResult).1 = zoneMap)) := by
  constructor
  · intro t ht hage
    subst ht
    simp [ensureZoneMap, hage]
  · intro hstale
    have hfetch : ensureZoneMap zoneMap lastFetch now fetchResult =
        zoneFetchStep zoneMap now fetchResult := by
      rcases hstale with hnone | ⟨t, ht, hage⟩
      · subst hnone; rfl
      · subst ht
        simp [ensureZoneMap, not_lt.mpr hage]
    rw [hfetch]
    refine ⟨?_, ?_, ?_, ?_⟩
    · cases fetchResult <;> simp [zoneFetchStep]
    · cases fetchResult <;> simp [zoneFetchStep]
    · intro p hp
      subst hp
      simp [zoneFetchStep]
    · intro hp
      subst hp
      simp [zoneFetchStep]

theorem c7_zone_cache_refresh_witness :
    (ensureZoneMap [("Z1", "Depot")] (some 0) 700
        (.ok (.jdict [("features", .jlist [.jdict
          [("id", .jstr "Z2"), ("properties", .jdict [("name", .jstr "Mine")])]])]))).2.2
      = true ∧
    (ensureZoneMap [("Z1", "Depot")] (some 0) 700
        (.ok (.jdict [("features", .jlist [.jdict
          [("id", .jstr "Z2"), ("properties", .jdict [("name", .jstr "Mine")])]])]))).2.1
      = some 700 ∧
    (ensureZoneMap [("Z1", "Depot")] (some 0) 700
        (.ok (.jdict [("features", .jlist [.jdict
          [("id", .jstr "Z2"), ("properties", .jdict [("name", .jstr "Mine")])]])]))).1
      = [("Z2", "Mine")] := by
  have h := (c7_zone_cache_refresh [("Z1", "Depot")] (some 0) 700
      (.ok (.jdict [("features", .jlist [.jdict
        [("id", .jstr "Z2"), ("properties", .jdict [("name", .jstr "Mine")])]])]))).2
    (Or.inr ⟨0, rfl, by norm_num [zonesCacheTtl]⟩)
  refine ⟨h.1, h.2.1, ?_⟩
  rw [h.2.2.1 _ rfl]
  decide

/-- C9: the single-flight refresh guard (modelled from the spec; see
`refreshStep`) issues exactly one upstream devices fetch for two refresh
requests that arrive before the first completes, both requesters observe
the same resulting snapshot, and a request arriving while a fetch is in
flight never issues an additional upstream call. -/
theorem c9_single_flight (s0 : FlightState) (r1 r2 : Nat) (snap : Snapshot)
    (h : s0.inFlight = false) :
    ((refreshStep (refreshStep (refreshStep s0 (.request r1)) (.request r2))
        (.complete snap)).upstreamCalls = s0.upstreamCalls + 1 ∧
      (refreshStep (refreshStep (refreshStep s0 (.request r1)) (.request r2))
        (.complete snap)).inFlight = false ∧
      (r1, snap) ∈ (refreshStep (refreshStep (refreshStep s0 (.request r1)) (.request r2))
        (.complete snap)).results ∧
      (r2, snap) ∈ (refreshStep (refreshStep (refreshStep s0 (.request r1)) (.request r2))
        (.complete snap)).results) ∧
    (∀ s : FlightState, s.inFlight = true → ∀ r,
      (refreshStep s (.request r)).upstreamCalls = s.upstreamCalls) := by
  constructor
  · simp [refreshStep, h]
  · intro s hs r
    simp [refreshStep, hs]

theorem c9_single_flight_witness :
    (refreshStep (refreshStep (refreshStep ⟨false, [], 0, []⟩ (.request 1)) (.request 2))
      (.complete [])).upstreamCalls = 1 ∧
    (1, ([] : Snapshot)) ∈ (refreshStep (refreshStep (refreshStep ⟨false, [], 0, []⟩
      (.request 1)) (.request 2)) (.complete [])).results ∧
    (2, ([] : Snapshot)) ∈ (refreshStep (refreshStep (refreshStep ⟨false, [], 0, []⟩
      (.request 1)) (.request 2)) (.complete [])).results := by
  have h := (c9_single_flight ⟨false, [], 0, []⟩ 1 2 [] rfl).1
  exact ⟨h.1, h.2.2.1, h.2.2.2⟩

/-- C3: demonstration that the coordinator stamps `next_allowed_at` from
the `_utcnow()` sample taken at entry, before the request is issued: the
response-observation time is not an input of the cycle at all.  With the
entry sample at 0 s, a 429 carrying `Retry-After: 10`, and the response
observed 2 s later, the code yields `next_allowed_at = 10`, where the spec
(and the repository's own test
`test_throttle_next_allowed_uses_response_time_not_pre_request_now`)
requires `2 + 10 = 12`. -/
theorem c3_throttle_uses_pre_request_time :
    (coordStep ⟨none, none, 0, none, none, [], none⟩ 0
        (.throttled 429 [("Retry-After", "10")]) none 0 (.error ())).1.nextAllowedAt
      = some 10 ∧
    (coordStep ⟨none, none, 0, none, none, [], none⟩ 0
        (.throttled 429 [("Retry-After", "10")]) none 0 (.error ())).1.throttleCount = 1 ∧
    (10 : ℚ) ≠ 2 + 10 := by
  have h1 : (coordStep ⟨none, none, 0, none, none, [], none⟩ 0
      (.throttled 429 [("Retry-After", "10")]) none 0 (.error ())).1.nextAllowedAt
      = some ((0 : ℚ) + ((max 0 10 : Int) : ℚ)) := rfl
  refine ⟨?_, rfl, by norm_num⟩
  rw [h1]
  norm_num

/-- C6 counterexample: a poll cycle whose fetch fails with an auth error
leaves the throttle state untouched instead of resetting it — with
`consecutive_throttle_count = 2` and a (past) `next_allowed_at = 0` going
in, both survive the failed cycle, contradicting "reset to empty on any
non-throttled response". -/
theorem c6_counterexample :
    (coordStep ⟨none, some 0, 2, none, none, [], none⟩ 5 .authFailed none 0
        (.error ())).1.throttleCount = 2 ∧
    (coordStep ⟨none, some 0, 2, none, none, [], none⟩ 5 .authFailed none 0
        (.error ())).1.nextAllowedAt = some 0 ∧
    ¬((coordStep ⟨none, some 0, 2, none, none, [], none⟩ 5 .authFailed none 0
        (.error ())).1.throttleCount = 0 ∧
      (coordStep ⟨none, some 0, 2, none, none, [], none⟩ 5 .authFailed none 0
        (.error ())).1.nextAllowedAt = none) := by
  have hgate : ¬((5 : ℚ) < 0) := by norm_num
  have hstep : coordStep ⟨none, some 0, 2, none, none, [], none⟩ 5 .authFailed none 0
      (.error ()) = (⟨none, some 0, 2, none, none, [], none⟩, .error .authError) := by
    simp [coordStep, hgate, coordFetchPhase]
  rw [hstep]
  simp

/-- C6 amended: after a non-gated poll cycle the throttle state is reset
(count 0, `next_allowed_at = none`) only on success; an endpoint, auth,
connection or unexpected failure raises with the whole state unchanged,
and a throttle response advances the count. -/
theorem c6_throttle_reset (st : CoordState) (now : ℚ) (fetch : FetchOutcome)
    (clientStatus : Option Nat) (zoneNow : ℚ) (zoneFetch : Except Unit JVal)
    (hgate : ∀ t, st.nextAllowedAt = some t → ¬(now < t)) :
    (∀ p, fetch = .success p →
      (coordStep st now fetch clientStatus zoneNow zoneFetch).1.throttleCount = 0 ∧
      (coordStep st now fetch clientStatus zoneNow zoneFetch).1.nextAllowedAt = none) ∧
    ((fetch = .endpointFailed ∨ fetch = .authFailed ∨ fetch = .connectionFailed ∨
        fetch = .unexpectedFailed) →
      (coordStep st now fetch clientStatus zoneNow zoneFetch).1 = st) ∧
    (∀ status headers, fetch = .throttled status headers →
      (coordStep st now fetch clientStatus zoneNow zoneFetch).1.throttleCount =
        st.throttleCount + 1) := by
  have hphase : coordStep st now fetch clientStatus zoneNow zoneFetch =
      coordFetchPhase st now fetch clientStatus zoneNow zoneFetch := by
    rcases hna : st.nextAllowedAt with _ | t
    · simp [coordStep, hna]
    · simp [coordStep, hna, hgate t hna]
  rw [hphase]
  refine ⟨?_, ?_, ?_⟩
  · intro p hp
    subst hp
    simp [coordFetchPhase]
  · intro hf
    rcases hf with hf | hf | hf | hf <;> (subst hf; simp [coordFetchPhase])
  · intro status headers hf
    subst hf
    simp [coordFetchPhase]

theorem c6_throttle_reset_witness :
    (coordStep ⟨none, none, 3, none, none, [], none⟩ 0 (.success (.jdict [])) (some 200) 0
      (.error ())).1.throttleCount = 0 ∧
    (coordStep ⟨none, none, 3, none, none, [], none⟩ 0 (.success (.jdict [])) (some 200) 0
      (.error ())).1.nextAllowedAt = none :=
  (c6_throttle_reset ⟨none, none, 3, none, none, [], none⟩ 0 (.success (.jdict []))
    (some 200) 0 (.error ()) (by simp)).1 (.jdict []) rfl

/-- C5 counterexample: a raw record carrying a non-empty id-like field
(`id`) and a name — which the claimed alias list and hash fallback would
turn into a usable identifier — is nevertheless dropped, because the
normalizer consults only `unique_id`. -/
theorem c5_counterexample :
    jget [("id", .jstr "abc"), ("name", .jstr "Car")] "id" = .jstr "abc" ∧
    normalizeDevice [("id", .jstr "abc"), ("name", .jstr "Car")] [] [] = none := by
  exact ⟨by decide, by decide⟩

/-- C5 amended: the vehicle id is derived solely from the `unique_id`
field — `str(raw.get("unique_id") or "").strip()` — and a record is
dropped exactly when that string is empty; the configured identity field,
an alias list, and a hash fallback are not consulted. -/
theorem c5_identifier (rawDevice : JObj) (previous : Snapshot)
    (zoneMap : List (String × String)) :
    (normalizeDevice rawDevice previous zoneMap = none ↔
      pyStrip (pyStr (pyOr (jget rawDevice "unique_id") (.jstr ""))) = "") ∧
    (∀ uid nd, normalizeDevice rawDevice previous zoneMap = some (uid, nd) →
      uid = pyStrip (pyStr (pyOr (jget rawDevice "unique_id") (.jstr "")))) := by
  by_cases h : pyStrip (pyStr (pyOr (jget rawDevice "unique_id") (.jstr ""))) = ""
  · constructor
    · simp [normalizeDevice, h]
    · intro uid nd hnd
      simp [normalizeDevice, h] at hnd
  · constructor
    · simp [normalizeDevice, h]
    · intro uid nd hnd
      simp only [normalizeDevice, if_neg h] at hnd
      exact (Prod.mk.injEq _ _ _ _).mp (Option.some.inj hnd) |>.1.symm

theorem c5_identifier_witness :
    normalizeDevice [("unique_id", .jstr " veh1 ")] [] [] ≠ none ∧
    (normalizeDevice [("unique_id", .jstr " veh1 ")] [] []).map Prod.fst = some "veh1" := by
  have h := c5_identifier [("unique_id", .jstr " veh1 ")] [] []
  have hne : normalizeDevice [("unique_id", .jstr " veh1 ")] [] [] ≠ none := by
    intro hn
    have := h.1.mp hn
    revert this
    decide
  refine ⟨hne, ?_⟩
  rcases hv : normalizeDevice [("unique_id", .jstr " veh1 ")] [] [] with _ | ⟨uid, nd⟩
  · exact absurd hv hne
  · have huid := h.2 uid nd hv
    simp only [Option.map, huid]
    decide

/-- C2 counterexample: an HTTP 200 response whose parsed JSON body is the
bare string `"invalid key"` — a body containing the upstream invalid-key
message — is returned as success wrapped under a `data` key rather than
classified as an auth-error, because the invalid-key check runs only on
dict payloads. -/
theorem c2_counterexample :
    bodyMentionsInvalidKey (.jstr "invalid key") = true ∧
    asyncRequest (.resp 200 [] (some (.jstr "invalid key"))) =
      .ok (.jdict [("data", .jstr "invalid key")]) := by
  exact ⟨by decide, by decide⟩

/-- C2 amended: response classification in priority order — 404 endpoint,
401/403 auth, 429 throttle carrying the headers (spec-modelled branch),
≥500 or network failure or non-JSON body connection, a parsed JSON-object
body with the invalid-key marker auth even on 200 — with non-object bodies
returned as success wrapped under a `data` key without the invalid-key
check; every result is success or exactly one of the four error classes. -/
theorem c2_classification (attempt : HttpAttempt) :
    (attempt = .netFail →
      asyncRequest attempt = .error (.clientError "network failure")) ∧
    (∀ s h b, attempt = .resp s h b →
      (s = 404 → asyncRequest attempt = .error (.endpointError "Endpoint returned 404")) ∧
      (s ≠ 404 → s = 401 ∨ s = 403 →
        asyncRequest attempt = .error (.authError "Authentication failed")) ∧
      (s ≠ 404 → s ≠ 401 → s ≠ 403 → s = 429 →
        asyncRequest attempt = .error (.throttleError s h)) ∧
      (s ≠ 404 → s ≠ 401 → s ≠ 403 → s ≠ 429 → 500 ≤ s →
        asyncRequest attempt = .error (.clientError "Server error")) ∧
      (s ≠ 404 → s ≠ 401 → s ≠ 403 → s ≠ 429 → s < 500 → b = none →
        asyncRequest attempt = .error (.clientError "response was not JSON")) ∧
      (∀ o, s ≠ 404 → s ≠ 401 → s ≠ 403 → s ≠ 429 → s < 500 → b = some (.jdict o) →
        hasInvalidKeyMessage o = true →
        asyncRequest attempt = .error (.authError "TrackMyRide API reported invalid keys")) ∧
      (∀ o, s ≠ 404 → s ≠ 401 → s ≠ 403 → s ≠ 429 → s < 500 → b = some (.jdict o) →
        hasInvalidKeyMessage o = false → asyncRequest attempt = .ok (.jdict o)) ∧
      (∀ p, s ≠ 404 → s ≠ 401 → s ≠ 403 → s ≠ 429 → s < 500 → b = some p →
        (∀ o, p ≠ .jdict o) → asyncRequest attempt = .ok (.jdict [("data", p)]))) ∧
    ((∃ p, asyncRequest attempt = .ok p) ∨ ∃ e, asyncRequest attempt = .error e) := by
  refine ⟨?_, ?_, ?_⟩
  · intro h
    subst h
    rfl
  · intro s h b hab
    subst hab
    refine ⟨?_, ?_, ?_, ?_, ?_, ?_, ?_, ?_⟩
    · intro h404
      simp [asyncRequest, h404]
    · intro h404 hauth
      have : ¬(s = 404) := h404
      rcases hauth with h4 | h4 <;> subst h4 <;> simp [asyncRequest]
    · intro h404 h401 h403 h429
      subst h429
      simp [asyncRequest]
    · intro h404 h401 h403 h429 h500
      simp only [asyncRequest]
      rw [if_neg h404, if_neg (by tauto), if_neg h429, if_pos h500]
    · intro h404 h401 h403 h429 h500 hb
      subst hb
      simp only [asyncRequest]
      rw [if_neg h404, if_neg (by tauto), if_neg h429, if_neg (by omega)]
    · intro o h404 h401 h403 h429 h500 hb hkey
      subst hb
      simp only [asyncRequest]
      rw [if_neg h404, if_neg (by tauto), if_neg h429, if_neg (by omega)]
      simp [hkey]
    · intro o h404 h401 h403 h429 h500 hb hkey
      subst hb
      simp only [asyncRequest]
      rw [if_neg h404, if_neg (by tauto), if_neg h429, if_neg (by omega)]
      simp [hkey]
    · intro p h404 h401 h403 h429 h500 hb hnd
      subst hb
      simp only [asyncRequest]
      rw [if_neg h404, if_neg (by tauto), if_neg h429, if_neg (by omega)]
  · rcases hres : asyncRequest attempt with e | p
    · exact Or.inr ⟨e, rfl⟩
    · exact Or.inl ⟨p, rfl⟩

theorem c2_classification_witness :
    asyncRequest (.resp 404 [] none) = .error (.endpointError "Endpoint returned 404") ∧
    asyncRequest (.resp 429 [("Retry-After", "7")] none) =
      .error (.throttleError 429 [("Retry-After", "7")]) ∧
    asyncRequest (.resp 200 [] (some (.jdict [("message", .jstr "Invalid Key")]))) =
      .error (.authError "TrackMyRide API reported invalid keys") := by
  refine ⟨((c2_classification (.resp 404 [] none)).2.1 404 [] none rfl).1 rfl, ?_, ?_⟩
  · exact (((c2_classification (.resp 429 [("Retry-After", "7")] none)).2.1 429
      [("Retry-After", "7")] none rfl).2.2.1 (by decide) (by decide) (by decide) rfl)
  · exact (((c2_classification (.resp 200 [] (some (.jdict
      [("message", .jstr "Invalid Key")])))).2.1 200 [] _ rfl).2.2.2.2.2.1
      [("message", .jstr "Invalid Key")] (by decide) (by decide) (by decide) (by decide)
      (by decide) rfl (by decide))

lemma nextComponentEqSecondary (u : String) (hu : u ≠ "year") :
    ∀ (units : List (String × Nat)), (∀ p ∈ units, 0 < p.2) →
      ∀ r, nextComponent r units u = secondaryUnit r units := by
  intro units
  induction units with
  | nil => intro _ r; rfl
  | cons q rest ih =>
    obtain ⟨unit, us⟩ := q
    intro hpos r
    have hus : 0 < us := hpos (unit, us) (List.mem_cons_self _ _)
    have hrest : ∀ p ∈ rest, 0 < p.2 := fun p hp => hpos p (List.mem_cons_of_mem _ hp)
    by_cases hr : r < us
    · simp only [nextComponent, secondaryUnit, hu, if_pos hr]
      rw [if_pos ⟨hr, by simp [hu]⟩]
      exact ih hrest r
    · have hv : 0 < r / us := Nat.div_pos (le_of_not_lt hr) hus
      simp only [nextComponent, secondaryUnit]
      rw [if_neg (by tauto), if_neg hr]
      simp [hu, hv.ne']

lemma nextComponentYearTail (r : Nat) :
    nextComponent r [("month", 2592000), ("day", 86400), ("hour", 3600),
      ("minute", 60), ("second", 1)] "year" =
    (if 0 < r ∧ r < 2592000 then some "2 months"
     else secondaryUnit r [("month", 2592000), ("day", 86400), ("hour", 3600),
       ("minute", 60), ("second", 1)]) := by
  rcases Nat.eq_zero_or_pos r with h0 | h0
  · subst h0; decide
  · by_cases h1 : r < 2592000
    · have hdv : r / 2592000 = 0 := Nat.div_eq_of_lt h1
      simp only [nextComponent]
      rw [if_neg (by simp [h0])]
      simp [hdv, h0, h1, pluralize]
      decide
    · have hv : 0 < r / 2592000 := Nat.div_pos (le_of_not_lt h1) (by norm_num)
      simp only [nextComponent, secondaryUnit]
      rw [if_neg (by simp [h1]), if_neg h1]
      simp [hv.ne', h0, h1]

lemma formatLoopEqRenderQuirk (a : Nat) :
    formatLoop a durationUnits = renderQuirk a durationUnits := by
  simp only [durationUnits, formatLoop, renderQuirk]
  rw [nextComponentYearTail,
    nextComponentEqSecondary "month" (by decide) _ (by decide),
    nextComponentEqSecondary "day" (by decide) _ (by decide),
    nextComponentEqSecondary "hour" (by decide) _ (by decide),
    nextComponentEqSecondary "minute" (by decide) _ (by decide),
    nextComponentEqSecondary "second" (by decide) _ (by decide)]
  simp

/-- C4 counterexample: at input 31536102 (one year plus 102 seconds) the
source renders the adjusted value 31536101 as "1 year 2 months" through
the hard-coded year/month branch of `_next_component`, while the claimed
two-largest-non-zero-units rule renders it "1 year 1 minute". -/
theorem c4_counterexample :
    formatCommsDelta 31536102 = "1 year 2 months" ∧
    renderTwoLargest 31536101 = "1 year 1 minute" ∧
    formatCommsDelta 31536102 ≠ renderTwoLargest 31536101 :=
  ⟨by decide, by decide, by decide⟩

/-- C4 amended: for every `n < 2^53` (the range on which the source's
`int(float(n))` round-trip is the identity), `format_comms_delta(n)`
computes `max(n - 1, 0)` and renders it as the two largest non-zero
duration units, except that a total of at least one year whose sub-year
remainder is positive but under one month renders its second component as
"2 months". -/
theorem c4_comms_formatting (n : Nat) (h : n < 2 ^ 53) :
    formatCommsDelta (n : Int) = renderTwoLargestQuirk (n - 1) := by
  have ht : ((n : Int) - 1).toNat = n - 1 := by omega
  rw [formatCommsDelta, ht, renderTwoLargestQuirk]
  exact formatLoopEqRenderQuirk (n - 1)

theorem c4_comms_formatting_witness :
    formatCommsDelta 45 = "44 seconds" ∧
    formatCommsDelta 61 = "1 minute" ∧
    formatCommsDelta 119 = "1 minute 58 seconds" ∧
    formatCommsDelta 3700 = "1 hour 1 minute" ∧
    formatCommsDelta 90061 = "1 day 1 hour" :=
  ⟨(c4_comms_formatting 45 (by norm_num)).trans (by decide),
   (c4_comms_formatting 61 (by norm_num)).trans (by decide),
   (c4_comms_formatting 119 (by norm_num)).trans (by decide),
   (c4_comms_formatting 3700 (by norm_num)).trans (by decide),
   (c4_comms_formatting 90061 (by norm_num)).trans (by decide)⟩

lemma asFloatSome {v : JVal} {fb : Option ℚ} {x : ℚ} (h : coerceFloat v = some x) :
    asFloat v fb = some x := by simp [asFloat, h]

lemma asFloatNone {v : JVal} {fb : Option ℚ} (h : coerceFloat v = none) :
    asFloat v fb = fb := by simp [asFloat, h]

lemma asIntSome {v : JVal} {fb : Option Int} {x : Int} (h : coerceInt v = some x) :
    asInt v fb = some x := by simp [asInt, h]

lemma asIntNone {v : JVal} {fb : Option Int} (h : coerceInt v = none) :
    asInt v fb = fb := by simp [asInt, h]

lemma asFloatIdem (v : JVal) (fb : Option ℚ) : asFloat v (asFloat v fb) = asFloat v fb := by
  cases h : coerceFloat v <;> simp [asFloat, h]

lemma asIntIdem (v : JVal) (fb : Option Int) : asInt v (asInt v fb) = asInt v fb := by
  cases h : coerceInt v <;> simp [asInt, h]

lemma asFloatChainIdem (a b : JVal) (fb : Option ℚ) :
    asFloat a (asFloat b (asFloat a (asFloat b fb))) = asFloat a (asFloat b fb) := by
  cases ha : coerceFloat a <;> cases hb : coerceFloat b <;> simp [asFloat, ha, hb]

lemma asDtIdem (e : Option Int) (fb : Option ℚ) :
    asDatetimeFromEpoch e (asDatetimeFromEpoch e fb) = asDatetimeFromEpoch e fb := by
  rcases e with _ | n
  · rfl
  · by_cases hr : datetimeMinEpoch ≤ n ∧ n ≤ datetimeMaxEpoch <;>
      simp [asDatetimeFromEpoch, hr]

lemma pyOrIdem (x y : JVal) : pyOr x (pyOr x y) = pyOr x y := by
  by_cases h : pyTruthy x = true <;> simp [pyOr, h]

lemma normalizeDeviceSome {rawDevice : JObj} {previous : Snapshot}
    {zoneMap : List (String × String)} {uid : String} {nd : NormalizedDevice}
    (h : normalizeDevice rawDevice previous zoneMap = some (uid, nd)) :
    uid = pyStrip (pyStr (pyOr (jget rawDevice "unique_id") (.jstr ""))) ∧
    uid ≠ "" ∧
    nd = buildDevice rawDevice (previous.lookup uid) zoneMap uid := by
  by_cases hid : pyStrip (pyStr (pyOr (jget rawDevice "unique_id") (.jstr ""))) = ""
  · rw [normalizeDevice, if_pos hid] at h
    exact absurd h (by simp)
  · rw [normalizeDevice, if_neg hid] at h
    have hp := Option.some.inj h
    have h1 : pyStrip (pyStr (pyOr (jget rawDevice "unique_id") (.jstr ""))) = uid :=
      congrArg Prod.fst hp
    have h2 := congrArg Prod.snd hp
    simp only [] at h2
    subst h1
    exact ⟨rfl, hid, h2.symm⟩

lemma bdCommsDelta (raw : JObj) (p : Option NormalizedDevice) (zm : List (String × String))
    (uid : String) : (buildDevice raw p zm uid).comms_delta =
      asInt (jget raw "comms_delta") (p.bind (·.comms_delta)) := rfl

lemma bdOdometer (raw : JObj) (p : Option NormalizedDevice) (zm : List (String × String))
    (uid : String) : (buildDevice raw p zm uid).odometer =
      asFloat (jget raw "odometer") (p.bind (·.odometer)) := rfl

lemma bdAccCounter (raw : JObj) (p : Option NormalizedDevice) (zm : List (String × String))
    (uid : String) : (buildDevice raw p zm uid).acc_counter =
      asFloat (jget raw "acc_counter") (p.bind (·.acc_counter)) := rfl

lemma bdExternalPower (raw : JObj) (p : Option NormalizedDevice) (zm : List (String × String))
    (uid : String) : (buildDevice raw p zm uid).external_power =
      asInt (jget raw "external_power") (p.bind (·.external_power)) := rfl

lemma bdEngine (raw : JObj) (p : Option NormalizedDevice) (zm : List (String × String))
    (uid : String) : (buildDevice raw p zm uid).engine =
      asInt (jget raw "engine") (p.bind (·.engine)) := rfl

lemma bdInternalBattery (raw : JObj) (p : Option NormalizedDevice)
    (zm : List (String × String)) (uid : String) :
    (buildDevice raw p zm uid).internal_battery =
      pyOr (jget raw "internal_battery") ((p.map (·.internal_battery)).getD .null) := rfl

lemma bdVolts (raw : JObj) (p : Option NormalizedDevice) (zm : List (String × String))
    (uid : String) : (buildDevice raw p zm uid).volts =
      match firstPoint raw with
      | some pt => asFloat (jget pt "volts") (asFloat (jget raw "volts") (p.bind (·.volts)))
      | none => asFloat (jget raw "volts") (p.bind (·.volts)) := rfl

lemma bdLat (raw : JObj) (p : Option NormalizedDevice) (zm : List (String × String))
    (uid : String) : (buildDevice raw p zm uid).lat =
      match firstPoint raw with
      | some pt => asFloat (jget pt "lat") (p.bind (·.lat))
      | none => p.bind (·.lat) := rfl

lemma bdLon (raw : JObj) (p : Option NormalizedDevice) (zm : List (String × String))
    (uid : String) : (buildDevice raw p zm uid).lon =
      match firstPoint raw with
      | some pt => asFloat (pyOr (jget pt "lng") (jget pt "lon")) (p.bind (·.lon))
      | none => p.bind (·.lon) := rfl

lemma bdSpeed (raw : JObj) (p : Option NormalizedDevice) (zm : List (String × String))
    (uid : String) : (buildDevice raw p zm uid).speed_kmh =
      match firstPoint raw with
      | some pt => asFloat (jget pt "speed") (p.bind (·.speed_kmh))
      | none => p.bind (·.speed_kmh) := rfl

lemma bdEpoch (raw : JObj) (p : Option NormalizedDevice) (zm : List (String × String))
    (uid : String) : (buildDevice raw p zm uid).timestamp_epoch =
      match firstPoint raw with
      | some pt => asInt (pyOr (jget pt "epoch") (jget raw "last_data_at_epoch"))
          (p.bind (·.timestamp_epoch))
      | none => asInt (jget raw "last_data_at_epoch") (p.bind (·.timestamp_epoch)) := rfl

lemma bdDt (raw : JObj) (p : Option NormalizedDevice) (zm : List (String × String))
    (uid : String) : (buildDevice raw p zm uid).timestamp_dt_utc =
      asDatetimeFromEpoch (buildDevice raw p zm uid).timestamp_epoch
        (p.bind (·.timestamp_dt_utc)) := rfl

/-- C1 counterexample: the raw record supplies `internal_battery = 0`, a
perfectly coercible value, yet the normalized reading keeps the previous
`"Charging"` — `internal_battery` falls back on truthiness, so any falsy
supplied value carries the previous value forward instead of replacing
it. -/
theorem c1_counterexample :
    (normalizeDevice [("unique_id", .jstr "veh1"), ("internal_battery", .jint 0)]
        [("veh1", buildDevice [("unique_id", .jstr "veh1"),
          ("internal_battery", .jstr "Charging")] none [] "veh1")] []).map
        (fun r => r.2.internal_battery) = some (.jstr "Charging") ∧
    JVal.jstr "Charging" ≠ .jint 0 :=
  ⟨by decide, by decide⟩

/-- C1 amended: field-level carry-forward, with each field read where the
source reads it — `comms_delta`, `odometer`, `acc_counter`,
`external_power` and `engine` from the top-level record with int/float
coercion; `volts` preferring the first telemetry point over the top-level
field; `lat`, `lon` (`lng` preferred over `lon` by truthiness) and
`speed_kmh` only from the first telemetry point; the timestamp from the
point's `epoch` (or the record's `last_data_at_epoch`); and
`internal_battery` following truthiness rather than coercibility, so a
falsy supplied value carries the previous value forward.  In every case an
omitted or non-coercible value yields the previous reading's field and a
coercible one yields the new value. -/
theorem c1_carry_forward (rawDevice : JObj) (previous : Snapshot)
    (zoneMap : List (String × String)) (uid : String) (nd : NormalizedDevice)
    (h : normalizeDevice rawDevice previous zoneMap = some (uid, nd)) :
    ((coerceInt (jget rawDevice "comms_delta") = none →
        nd.comms_delta = (previous.lookup uid).bind (·.comms_delta)) ∧
     (∀ v, coerceInt (jget rawDevice "comms_delta") = some v → nd.comms_delta = some v)) ∧
    ((coerceFloat (jget rawDevice "odometer") = none →
        nd.odometer = (previous.lookup uid).bind (·.odometer)) ∧
     (∀ v, coerceFloat (jget rawDevice "odometer") = some v → nd.odometer = some v)) ∧
    ((coerceFloat (jget rawDevice "acc_counter") = none →
        nd.acc_counter = (previous.lookup uid).bind (·.acc_counter)) ∧
     (∀ v, coerceFloat (jget rawDevice "acc_counter") = some v → nd.acc_counter = some v)) ∧
    ((coerceInt (jget rawDevice "external_power") = none →
        nd.external_power = (previous.lookup uid).bind (·.external_power)) ∧
     (∀ v, coerceInt (jget rawDevice "external_power") = some v →
        nd.external_power = some v)) ∧
    ((coerceInt (jget rawDevice "engine") = none →
        nd.engine = (previous.lookup uid).bind (·.engine)) ∧
     (∀ v, coerceInt (jget rawDevice "engine") = some v → nd.engine = some v)) ∧
    ((∀ pt v, firstPoint rawDevice = some pt → coerceFloat (jget pt "volts") = some v →
        nd.volts = some v) ∧
     (∀ pt, firstPoint rawDevice = some pt → coerceFloat (jget pt "volts") = none →
        ((∀ v, coerceFloat (jget rawDevice "volts") = some v → nd.volts = some v) ∧
         (coerceFloat (jget rawDevice "volts") = none →
           nd.volts = (previous.lookup uid).bind (·.volts)))) ∧
     (firstPoint rawDevice = none →
        ((∀ v, coerceFloat (jget rawDevice "volts") = some v → nd.volts = some v) ∧
         (coerceFloat (jget rawDevice "volts") = none →
           nd.volts = (previous.lookup uid).bind (·.volts))))) ∧
    ((firstPoint rawDevice = none → nd.lat = (previous.lookup uid).bind (·.lat)) ∧
     (∀ pt, firstPoint rawDevice = some pt →
        ((∀ v, coerceFloat (jget pt "lat") = some v → nd.lat = some v) ∧
         (coerceFloat (jget pt "lat") = none →
           nd.lat = (previous.lookup uid).bind (·.lat))))) ∧
    ((firstPoint rawDevice = none → nd.lon = (previous.lookup uid).bind (·.lon)) ∧
     (∀ pt, firstPoint rawDevice = some pt →
        ((∀ v, coerceFloat (pyOr (jget pt "lng") (jget pt "lon")) = some v →
            nd.lon = some v) ∧
         (coerceFloat (pyOr (jget pt "lng") (jget pt "lon")) = none →
           nd.lon = (previous.lookup uid).bind (·.lon))))) ∧
    ((firstPoint rawDevice = none → nd.speed_kmh = (previous.lookup uid).bind (·.speed_kmh)) ∧
     (∀ pt, firstPoint rawDevice = some pt →
        ((∀ v, coerceFloat (jget pt "speed") = some v → nd.speed_kmh = some v) ∧
         (coerceFloat (jget pt "speed") = none →
           nd.speed_kmh = (previous.lookup uid).bind (·.speed_kmh))))) ∧
    ((∀ pt, firstPoint rawDevice = some pt →
        ((∀ v, coerceInt (pyOr (jget pt "epoch") (jget rawDevice "last_data_at_epoch"))
            = some v → nd.timestamp_epoch = some v) ∧
         (coerceInt (pyOr (jget pt "epoch") (jget rawDevice "last_data_at_epoch")) = none →
           nd.timestamp_epoch = (previous.lookup uid).bind (·.timestamp_epoch)))) ∧
     (firstPoint rawDevice = none →
        ((∀ v, coerceInt (jget rawDevice "last_data_at_epoch") = some v →
            nd.timestamp_epoch = some v) ∧
         (coerceInt (jget rawDevice "last_data_at_epoch") = none →
           nd.timestamp_epoch = (previous.lookup uid).bind (·.timestamp_epoch))))) ∧
    ((pyTruthy (jget rawDevice "internal_battery") = true →
        nd.internal_battery = jget rawDevice "internal_battery") ∧
     (pyTruthy (jget rawDevice "internal_battery") = false →
        nd.internal_battery = ((previous.lookup uid).map (·.internal_battery)).getD .null)) := by
  obtain ⟨huid, hne, hnd⟩ := normalizeDeviceSome h
  subst hnd
  refine ⟨⟨?_, ?_⟩, ⟨?_, ?_⟩, ⟨?_, ?_⟩, ⟨?_, ?_⟩, ⟨?_, ?_⟩, ⟨?_, ?_, ?_⟩,
    ⟨?_, ?_⟩, ⟨?_, ?_⟩, ⟨?_, ?_⟩, ⟨?_, ?_⟩, ⟨?_, ?_⟩⟩
  · intro hc; rw [bdCommsDelta, asIntNone hc]
  · intro v hc; rw [bdCommsDelta, asIntSome hc]
  · intro hc; rw [bdOdometer, asFloatNone hc]
  · intro v hc; rw [bdOdometer, asFloatSome hc]
  · intro hc; rw [bdAccCounter, asFloatNone hc]
  · intro v hc; rw [bdAccCounter, asFloatSome hc]
  · intro hc; rw [bdExternalPower, asIntNone hc]
  · intro v hc; rw [bdExternalPower, asIntSome hc]
  · intro hc; rw [bdEngine, asIntNone hc]
  · intro v hc; rw [bdEngine, asIntSome hc]
  · intro pt v hpt hc
    simp only [bdVolts, hpt]
    exact asFloatSome hc
  · intro pt hpt hc
    constructor
    · intro v hc2
      simp only [bdVolts, hpt]
      rw [asFloatNone hc, asFloatSome hc2]
    · intro hc2
      simp only [bdVolts, hpt]
      rw [asFloatNone hc, asFloatNone hc2]
  · intro hpt
    constructor
    · intro v hc2
      simp only [bdVolts, hpt]
      exact asFloatSome hc2
    · intro hc2
      simp only [bdVolts, hpt]
      exact asFloatNone hc2
  · intro hpt
    simp only [bdLat, hpt]
  · intro pt hpt
    constructor
    · intro v hc
      simp only [bdLat, hpt]
      exact asFloatSome hc
    · intro hc
      simp only [bdLat, hpt]
      exact asFloatNone hc
  · intro hpt
    simp only [bdLon, hpt]
  · intro pt hpt
    constructor
    · intro v hc
      simp only [bdLon, hpt]
      exact asFloatSome hc
    · intro hc
      simp only [bdLon, hpt]
      exact asFloatNone hc
  · intro hpt
    simp only [bdSpeed, hpt]
  · intro pt hpt
    constructor
    · intro v hc
      simp only [bdSpeed, hpt]
      exact asFloatSome hc
    · intro hc
      simp only [bdSpeed, hpt]
      exact asFloatNone hc
  · intro pt hpt
    constructor
    · intro v hc
      simp only [bdEpoch, hpt]
      exact asIntSome hc
    · intro hc
      simp only [bdEpoch, hpt]
      exact asIntNone hc
  · intro hpt
    constructor
    · intro v hc
      simp only [bdEpoch, hpt]
      exact asIntSome hc
    · intro hc
      simp only [bdEpoch, hpt]
      exact asIntNone hc
  · intro ht
    rw [bdInternalBattery]
    simp [pyOr, ht]
  · intro ht
    rw [bdInternalBattery]
    simp [pyOr, ht]

theorem c1_carry_forward_witness :
    (normalizeDevice [("unique_id", .jstr "veh1"), ("comms_delta", .jstr "10")] [] []).map
      (fun r => r.2.comms_delta) = some (some 10) := by
  rcases hv : normalizeDevice [("unique_id", .jstr "veh1"), ("comms_delta", .jstr "10")] [] []
    with _ | ⟨uid, nd⟩
  · exact absurd hv (by decide)
  · have h := (c1_carry_forward _ [] [] uid nd hv).1.2 10 (by decide)
    simp only [Option.map, h]

lemma bdName (raw : JObj) (p : Option NormalizedDevice) (zm : List (String × String))
    (uid : String) : (buildDevice raw p zm uid).name =
      pyOr (jget raw "name") (.jstr ("TrackMyRide " ++ uid)) := rfl

lemma bdCommsSeconds (raw : JObj) (p : Option NormalizedDevice) (zm : List (String × String))
    (uid : String) : (buildDevice raw p zm uid).comms_delta_seconds =
      (buildDevice raw p zm uid).comms_delta.map (fun n => max (n - 1) 0) := rfl

lemma bdLastComms (raw : JObj) (p : Option NormalizedDevice) (zm : List (String × String))
    (uid : String) : (buildDevice raw p zm uid).last_comms =
      formatCommsDeltaOpt (buildDevice raw p zm uid).comms_delta := rfl

lemma bdAccTd (raw : JObj) (p : Option NormalizedDevice) (zm : List (String × String))
    (uid : String) : (buildDevice raw p zm uid).acc_counter_timedelta =
      minutesToTimedelta (buildDevice raw p zm uid).acc_counter := rfl

lemma bdAccStr (raw : JObj) (p : Option NormalizedDevice) (zm : List (String × String))
    (uid : String) : (buildDevice raw p zm uid).acc_counter_str =
      (match (buildDevice raw p zm uid).acc_counter_timedelta with
       | some td => if td ≠ 0 then some (timedeltaStr td) else none
       | none => none) := rfl

lemma buildDeviceIdem (raw : JObj) (p : Option NormalizedDevice)
    (zm : List (String × String)) (uid : String) :
    buildDevice raw (some (buildDevice raw p zm uid)) zm uid = buildDevice raw p zm uid := by
  have hcd : (buildDevice raw (some (buildDevice raw p zm uid)) zm uid).comms_delta =
      (buildDevice raw p zm uid).comms_delta := by
    simp [bdCommsDelta, asIntIdem]
  have hacc : (buildDevice raw (some (buildDevice raw p zm uid)) zm uid).acc_counter =
      (buildDevice raw p zm uid).acc_counter := by
    simp [bdAccCounter, asFloatIdem]
  have hep : (buildDevice raw (some (buildDevice raw p zm uid)) zm uid).timestamp_epoch =
      (buildDevice raw p zm uid).timestamp_epoch := by
    rcases hpt : firstPoint raw with _ | pt <;> simp [bdEpoch, hpt, asIntIdem]
  ext : 1
  · rfl
  · rfl
  · rcases hpt : firstPoint raw with _ | pt <;> simp [bdLat, hpt, asFloatIdem]
  · rcases hpt : firstPoint raw with _ | pt <;> simp [bdLon, hpt, asFloatIdem]
  · rcases hpt : firstPoint raw with _ | pt <;> simp [bdSpeed, hpt, asFloatIdem]
  · rw [hep]
  · rw [bdDt, bdDt, hep]
    simp only [Option.some_bind]
    rw [bdDt]
    exact asDtIdem _ _
  · rcases hpt : firstPoint raw with _ | pt <;>
      simp [bdVolts, hpt, asFloatIdem, asFloatChainIdem]
  · rw [hcd]
  · rw [bdCommsSeconds, bdCommsSeconds, hcd]
  · rw [bdLastComms, bdLastComms, hcd]
  · simp [bdOdometer, asFloatIdem]
  · rw [hacc]
  · rw [bdAccTd, bdAccTd, hacc]
  · rw [bdAccStr, bdAccStr, bdAccTd, bdAccTd, hacc]
  · simp [bdExternalPower, asIntIdem]
  · simp [bdEngine, asIntIdem]
  · simp [bdInternalBattery, pyOrIdem]
  · rfl
  · rfl
  · rfl
  · rfl
  · rfl
  · rfl

/-- C8: normalizing the same raw record a second time against a snapshot
whose entry for the id equals the previously produced reading yields the
very same reading, and `_coalesce_device` then returns the previous
object, so consumers can detect "no real change" by equality. -/
theorem c8_coalescing (rawDevice : JObj) (previous previous2 : Snapshot)
    (zoneMap : List (String × String)) (uid : String) (nd : NormalizedDevice)
    (h : normalizeDevice rawDevice previous zoneMap = some (uid, nd))
    (h2 : previous2.lookup uid = some nd) :
    normalizeDevice rawDevice previous2 zoneMap = some (uid, nd) ∧
    coalesceDevice (previous2.lookup uid) nd = nd := by
  obtain ⟨huid, hne, hnd⟩ := normalizeDeviceSome h
  have hne' : pyStrip (pyStr (pyOr (jget rawDevice "unique_id") (.jstr ""))) ≠ "" :=
    huid ▸ hne
  constructor
  · rw [normalizeDevice, if_neg hne', ← huid, h2, hnd]
    rw [buildDeviceIdem]
  · rw [h2]
    simp [coalesceDevice]

theorem c8_coalescing_witness :
    normalizeDevice [("unique_id", .jstr "veh1"), ("comms_delta", .jint 10)]
      (match normalizeDevice [("unique_id", .jstr "veh1"), ("comms_delta", .jint 10)] [] []
        with
       | some r => [r]
       | none => []) [] =
    normalizeDevice [("unique_id", .jstr "veh1"), ("comms_delta", .jint 10)] [] [] := by
  rcases hv : normalizeDevice [("unique_id", .jstr "veh1"), ("comms_delta", .jint 10)] [] []
    with _ | ⟨uid, nd⟩
  · exact absurd hv (by decide)
  · have hlook : List.lookup uid [(uid, nd)] = some nd := by simp
    exact (c8_coalescing _ [] [(uid, nd)] [] uid nd hv hlook).1
